import Mathlib

/-!
Shallow embedding of the Solado crowdfunding escrow program
(src/solado/programs/solado/src/lib.rs) and verification of the frozen
claims about it.

Modelling conventions:
- `Pubkey` values (account addresses, identities) are abstract `Nat` keys.
- `u64` fields are `Nat` with explicit bounds checks where the source
  performs checked arithmetic; `i64` timestamps are `Int`.
- Account lamport balances are passed explicitly to each instruction;
  the system-program transfer in `donate` fails when the source balance
  is insufficient (modelled as `TxError.transferFailed`).
- The unchecked `campaign.donated_amount += amount` on line 69 of the
  source is unchecked u64 addition. Its overflow behaviour is fixed by
  the build profile of the crate, which is not part of the sources here.
  Modelled from the spec: arithmetic never silently wraps, so the
  addition aborts the whole transaction on overflow
  (`TxError.arithmeticTrap`); it does not produce `ErrorCode.Overflow`,
  which line 69 never constructs.
- Rent deposits paid to newly initialised accounts and the lamports
  returned by the `close` constraints are storage/reserve accounting,
  declared out of scope by the specification; value moved by the
  instruction bodies themselves is modelled exactly.
-/

deriving instance DecidableEq for Except

namespace Solado

/-- Abstract account address / identity (stands for a Solana `Pubkey`). -/
abbrev Key := Nat

/-- Largest representable `u64` value. -/
def U64_MAX : Nat := 2 ^ 64 - 1

/-- The error enumeration of the program (`ErrorCode` in lib.rs). -/
inductive ErrorCode where
  | InvalidGoalAmount
  | InvalidDeadline
  | TitleTooLong
  | DescriptionTooLong
  | UriTooLong
  | InvalidDonationAmount
  | CampaignNotActive
  | CampaignExpired
  | Unauthorized
  | CampaignNotExpired
  | GoalNotReached
  | GoalReached
  | InvalidCampaign
  | InsufficientFunds
  | Overflow
  | Underflow
  | CampaignHasDonations
deriving DecidableEq

/-- Outcome of a failed transaction: either a typed program error
(`err!` via `require!` / `ok_or`), a failed system-program transfer
(propagated by `?` in `donate`), or an abort of the transaction caused
by a trap in unchecked arithmetic. -/
inductive TxError where
  | code : ErrorCode → TxError
  | transferFailed : TxError
  | arithmeticTrap : TxError
deriving DecidableEq

/-- The `Campaign` account data (lib.rs lines 237-249). -/
structure Campaign where
  creator : Key
  title : String
  description : String
  goal_amount : Nat
  donated_amount : Nat
  deadline : Int
  metadata_uri : String
  created_at : Int
  is_active : Bool
  bump : Nat
deriving DecidableEq

/-- The `DonationRecord` account data (lib.rs lines 255-262). -/
structure DonationRecord where
  donor : Key
  campaign : Key
  amount : Nat
  timestamp : Int
  bump : Nat
deriving DecidableEq

/-- `create_campaign` (lib.rs lines 10-48): validates the inputs and
initialises the campaign account. -/
def create_campaign (creator : Key) (title description : String)
    (goal_amount : Nat) (deadline : Int) (metadata_uri : String)
    (now : Int) (bump : Nat) : Except TxError Campaign :=
  if goal_amount = 0 then .error (.code .InvalidGoalAmount)
  else if deadline ≤ now then .error (.code .InvalidDeadline)
  else if 200 < title.utf8ByteSize then .error (.code .TitleTooLong)
  else if 1000 < description.utf8ByteSize then .error (.code .DescriptionTooLong)
  else if 200 < metadata_uri.utf8ByteSize then .error (.code .UriTooLong)
  else .ok {
    creator := creator
    title := title
    description := description
    goal_amount := goal_amount
    donated_amount := 0
    deadline := deadline
    metadata_uri := metadata_uri
    created_at := now
    is_active := true
    bump := bump }

/-- Result of a successful `donate`: the updated campaign account, the
newly initialised donation record, and the updated lamport balances of
the donor wallet and the campaign account. -/
structure DonateOk where
  campaign : Campaign
  record : DonationRecord
  donor_lamports : Nat
  campaign_lamports : Nat
deriving DecidableEq

/-- `donate` (lib.rs lines 50-78). The body performs no validation at
all: it transfers `amount` lamports from the donor to the campaign via
the system program, does `campaign.donated_amount += amount` (unchecked
u64 addition, see the file header), and fills in the donation record
with the caller-supplied `timestamp`. -/
def donate (campaign : Campaign) (campaign_key donor : Key)
    (donor_lamports campaign_lamports : Nat)
    (amount : Nat) (timestamp : Int) (record_bump : Nat) :
    Except TxError DonateOk :=
  if donor_lamports < amount then .error .transferFailed
  else if U64_MAX < campaign.donated_amount + amount then .error .arithmeticTrap
  else .ok {
    campaign := { campaign with donated_amount := campaign.donated_amount + amount }
    record := {
      donor := donor
      campaign := campaign_key
      amount := amount
      timestamp := timestamp
      bump := record_bump }
    donor_lamports := donor_lamports - amount
    campaign_lamports := campaign_lamports + amount }

/-- Result of a successful `withdraw`: the deactivated campaign account,
the updated lamport balances, and the amount paid out to the creator. -/
structure WithdrawOk where
  campaign : Campaign
  campaign_lamports : Nat
  creator_lamports : Nat
  withdrawn : Nat
deriving DecidableEq

/-- `withdraw` (lib.rs lines 78-110): four `require!` validations in
order, then `withdrawable_amount = campaign_balance - rent_exempt_balance`
via `checked_sub` (`InsufficientFunds` on failure), the campaign balance
is set to exactly the rent-exempt reserve, the creator balance grows by
`withdrawable_amount` via `checked_add` (`Overflow` on failure), and
`is_active` is set to `false`. `rent_exempt_balance` is the externally
supplied reserve (`Rent::get()?.minimum_balance(Campaign::SPACE)`). -/
def withdraw (campaign : Campaign) (creator : Key)
    (campaign_lamports creator_lamports : Nat)
    (rent_exempt_balance : Nat) (now : Int) : Except TxError WithdrawOk :=
  if campaign.creator ≠ creator then .error (.code .Unauthorized)
  else if campaign.is_active = false then .error (.code .CampaignNotActive)
  else if now < campaign.deadline then .error (.code .CampaignNotExpired)
  else if campaign.donated_amount < campaign.goal_amount then .error (.code .GoalNotReached)
  else if campaign_lamports < rent_exempt_balance then .error (.code .InsufficientFunds)
  else if U64_MAX < creator_lamports + (campaign_lamports - rent_exempt_balance) then
    .error (.code .Overflow)
  else .ok {
    campaign := { campaign with is_active := false }
    campaign_lamports := rent_exempt_balance
    creator_lamports := creator_lamports + (campaign_lamports - rent_exempt_balance)
    withdrawn := campaign_lamports - rent_exempt_balance }

/-- Result of a successful `refund`: the updated campaign account, the
updated lamport balances, and the refunded amount. The donation record
itself is destroyed by the `close = donor` account constraint, which is
modelled at the state-machine level (`Step.refund_tx`). -/
structure RefundOk where
  campaign : Campaign
  campaign_lamports : Nat
  donor_lamports : Nat
  refunded : Nat
deriving DecidableEq

/-- `refund` (lib.rs lines 112-149): four `require!` validations in
order, then the record amount moves from the campaign balance
(`checked_sub`, `InsufficientFunds`) to the donor balance (`checked_add`,
`Overflow`), and `donated_amount` shrinks by the record amount via
`checked_sub` (`Underflow`). -/
def refund (campaign : Campaign) (campaign_key donor : Key)
    (donation_record : DonationRecord)
    (campaign_lamports donor_lamports : Nat) (now : Int) :
    Except TxError RefundOk :=
  if donation_record.donor ≠ donor then .error (.code .Unauthorized)
  else if donation_record.campaign ≠ campaign_key then .error (.code .InvalidCampaign)
  else if now < campaign.deadline then .error (.code .CampaignNotExpired)
  else if campaign.goal_amount ≤ campaign.donated_amount then .error (.code .GoalReached)
  else if campaign_lamports < donation_record.amount then .error (.code .InsufficientFunds)
  else if U64_MAX < donor_lamports + donation_record.amount then .error (.code .Overflow)
  else if campaign.donated_amount < donation_record.amount then .error (.code .Underflow)
  else .ok {
    campaign := { campaign with
      donated_amount := campaign.donated_amount - donation_record.amount }
    campaign_lamports := campaign_lamports - donation_record.amount
    donor_lamports := donor_lamports + donation_record.amount
    refunded := donation_record.amount }

/-- `delete_campaign` (lib.rs lines 151-165): two `require!` validations;
the account destruction itself is performed by the `close = creator`
constraint, modelled at the state-machine level (`Step.delete_tx`). -/
def delete_campaign (campaign : Campaign) (creator : Key) : Except TxError Unit :=
  if campaign.creator ≠ creator then .error (.code .Unauthorized)
  else if campaign.donated_amount ≠ 0 then .error (.code .CampaignHasDonations)
  else .ok ()

/-- Whether a transaction result is a success. -/
def txOk : Except TxError α → Bool
  | .ok _ => true
  | .error _ => false

/-! ### Association lists

Account storage is modelled as association lists from addresses to
account data, mirroring a key-value store keyed on derived addresses. -/

/-- First value stored under key `k`, if any. -/
def alookup (l : List (Key × α)) (k : Key) : Option α :=
  match l with
  | [] => none
  | (k1, v) :: t => if k = k1 then some v else alookup t k

/-- Replace the value stored under key `k` (no effect if `k` is absent). -/
def aset (l : List (Key × α)) (k : Key) (v : α) : List (Key × α) :=
  match l with
  | [] => []
  | (k1, v1) :: t => if k1 = k then (k, v) :: t else (k1, v1) :: aset t k v

/-- Remove the first entry stored under key `k`. -/
def aremove (l : List (Key × α)) (k : Key) : List (Key × α) :=
  match l with
  | [] => []
  | (k1, v1) :: t => if k1 = k then t else (k1, v1) :: aremove t k

/-- Insert or replace the value stored under key `k`. -/
def aupsert (l : List (Key × α)) (k : Key) (v : α) : List (Key × α) :=
  match l with
  | [] => [(k, v)]
  | (k1, v1) :: t => if k1 = k then (k, v) :: t else (k1, v1) :: aupsert t k v

/-- The keys of an association list. -/
def akeys (l : List (Key × α)) : List Key := l.map (fun p => p.1)

theorem alookup_none_iff_not_mem (l : List (Key × α)) (k : Key) :
    alookup l k = none ↔ k ∉ akeys l := by
  induction l with
  | nil => simp [alookup, akeys]
  | cons p t ih =>
    obtain ⟨k1, v⟩ := p
    by_cases hk : k = k1 <;> simp [alookup, akeys, hk, ih]

theorem alookup_aset_eq (l : List (Key × α)) (k : Key) (v w : α)
    (h : alookup l k = some w) : alookup (aset l k v) k = some v := by
  induction l with
  | nil => simp [alookup] at h
  | cons p t ih =>
    obtain ⟨k1, v1⟩ := p
    by_cases hk : k1 = k
    · simp [aset, hk, alookup]
    · have hk2 : ¬ k = k1 := fun hh => hk hh.symm
      simp [alookup, hk2] at h
      simp [aset, hk, alookup, hk2, ih h]

theorem alookup_aset_ne (l : List (Key × α)) (k k2 : Key) (v : α)
    (h : k2 ≠ k) : alookup (aset l k v) k2 = alookup l k2 := by
  induction l with
  | nil => simp [aset]
  | cons p t ih =>
    obtain ⟨k1, v1⟩ := p
    by_cases hk : k1 = k
    · subst hk
      simp [aset, alookup, h, ih]
    · by_cases hk2 : k2 = k1 <;> simp [aset, hk, alookup, hk2, ih]

theorem akeys_aset (l : List (Key × α)) (k : Key) (v : α) :
    akeys (aset l k v) = akeys l := by
  induction l with
  | nil => simp [aset]
  | cons p t ih =>
    obtain ⟨k1, v1⟩ := p
    by_cases hk : k1 = k
    · subst hk
      simp [aset, akeys]
    · simp [aset, hk, akeys] at ih ⊢
      exact ih

theorem aremove_sublist (l : List (Key × α)) (k : Key) :
    (aremove l k).Sublist l := by
  induction l with
  | nil => simp [aremove]
  | cons p t ih =>
    obtain ⟨k1, v1⟩ := p
    by_cases hk : k1 = k
    · simp [aremove, hk]
    · simp [aremove, hk]
      exact ih

theorem akeys_aremove_sublist (l : List (Key × α)) (k : Key) :
    (akeys (aremove l k)).Sublist (akeys l) :=
  List.Sublist.map _ (aremove_sublist l k)

theorem alookup_aremove_ne (l : List (Key × α)) (k k2 : Key)
    (h : k2 ≠ k) : alookup (aremove l k) k2 = alookup l k2 := by
  induction l with
  | nil => simp [aremove]
  | cons p t ih =>
    obtain ⟨k1, v1⟩ := p
    by_cases hk : k1 = k
    · subst hk
      simp [aremove, alookup, h, ih]
    · by_cases hk2 : k2 = k1 <;> simp [aremove, hk, alookup, hk2, ih]

theorem alookup_aremove_self (l : List (Key × α)) (k : Key)
    (hnd : (akeys l).Nodup) : alookup (aremove l k) k = none := by
  induction l with
  | nil => simp [aremove, alookup]
  | cons p t ih =>
    obtain ⟨k1, v1⟩ := p
    simp only [akeys, List.map_cons, List.nodup_cons] at hnd
    by_cases hk : k1 = k
    · subst hk
      simp only [aremove, if_pos rfl]
      exact (alookup_none_iff_not_mem t k1).2 hnd.1
    · have hk2 : ¬ k = k1 := fun hh => hk hh.symm
      simp [aremove, hk, alookup, hk2]
      exact ih hnd.2

/-! ### The global escrow state machine -/

/-- Sum of the amounts of all live donation records whose `campaign`
field references the campaign stored at address `ck`. -/
def sumAlive (records : List (Key × DonationRecord)) (ck : Key) : Nat :=
  match records with
  | [] => 0
  | (_, r) :: t => (if r.campaign = ck then r.amount else 0) + sumAlive t ck

theorem sumAlive_aremove (records : List (Key × DonationRecord)) (rk ck : Key)
    (r : DonationRecord) (h : alookup records rk = some r) :
    sumAlive records ck =
      (if r.campaign = ck then r.amount else 0) + sumAlive (aremove records rk) ck := by
  induction records with
  | nil => simp [alookup] at h
  | cons p t ih =>
    obtain ⟨k1, r1⟩ := p
    by_cases hk : rk = k1
    · subst hk
      simp [alookup] at h
      subst h
      simp [aremove, sumAlive]
    · have hk2 : ¬ k1 = rk := fun hh => hk hh.symm
      simp only [alookup, if_neg hk] at h
      simp only [aremove, if_neg hk2, sumAlive]
      rw [ih h]
      omega

/-- The complete on-chain state touched by the program: campaign
accounts, donation-record accounts, and lamport balances, each keyed by
address. Addresses are abstract: the seed-based derivation of campaign
and donation-record addresses is treated as an opaque source of keys. -/
structure Chain where
  campaigns : List (Key × Campaign)
  records : List (Key × DonationRecord)
  balances : List (Key × Nat)
deriving DecidableEq

/-- Lamport balance of the account at address `k` (0 if untracked). -/
def getBal (s : Chain) (k : Key) : Nat := (alookup s.balances k).getD 0

/-- One successfully executed transaction. Each constructor resolves the
accounts an instruction touches, requires the instruction body to
succeed, and commits its effects; a failed instruction leaves the state
unchanged (transactional all-or-nothing), so it generates no step.
`init` constraints require the created account to be absent, and the
`close` constraints of `refund` and `delete_campaign` remove the closed
account. -/
inductive Step : Chain → Chain → Prop where
  | create_tx (s : Chain) (ck creator : Key) (title description : String)
      (goal_amount : Nat) (deadline : Int) (metadata_uri : String)
      (now : Int) (bump : Nat) (camp : Campaign)
      (hfresh : alookup s.campaigns ck = none)
      (hok : create_campaign creator title description goal_amount deadline
              metadata_uri now bump = .ok camp) :
      Step s { s with campaigns := (ck, camp) :: s.campaigns }
  | donate_tx (s : Chain) (ck donor rk : Key) (camp : Campaign)
      (amount : Nat) (timestamp : Int) (record_bump : Nat) (res : DonateOk)
      (hc : alookup s.campaigns ck = some camp)
      (hfresh : alookup s.records rk = none)
      (hok : donate camp ck donor (getBal s donor) (getBal s ck)
              amount timestamp record_bump = .ok res) :
      Step s { campaigns := aset s.campaigns ck res.campaign
               records := (rk, res.record) :: s.records
               balances := aupsert (aupsert s.balances donor res.donor_lamports)
                 ck res.campaign_lamports }
  | withdraw_tx (s : Chain) (ck creator : Key) (camp : Campaign)
      (rent_exempt_balance : Nat) (now : Int) (res : WithdrawOk)
      (hc : alookup s.campaigns ck = some camp)
      (hok : withdraw camp creator (getBal s ck) (getBal s creator)
              rent_exempt_balance now = .ok res) :
      Step s { campaigns := aset s.campaigns ck res.campaign
               records := s.records
               balances := aupsert (aupsert s.balances ck res.campaign_lamports)
                 creator res.creator_lamports }
  | refund_tx (s : Chain) (ck donor rk : Key) (camp : Campaign)
      (rec : DonationRecord) (now : Int) (res : RefundOk)
      (hc : alookup s.campaigns ck = some camp)
      (hr : alookup s.records rk = some rec)
      (hok : refund camp ck donor rec (getBal s ck) (getBal s donor)
              now = .ok res) :
      Step s { campaigns := aset s.campaigns ck res.campaign
               records := aremove s.records rk
               balances := aupsert (aupsert s.balances ck res.campaign_lamports)
                 donor res.donor_lamports }
  | delete_tx (s : Chain) (ck creator : Key) (camp : Campaign)
      (hc : alookup s.campaigns ck = some camp)
      (hok : delete_campaign camp creator = .ok ()) :
      Step s { campaigns := aremove s.campaigns ck
               records := s.records
               balances := aupsert (aupsert s.balances ck 0) creator
                 (getBal s creator + getBal s ck) }

/-- Genesis state: no campaigns, no donation records, arbitrary wallet
balances supplied by the environment. -/
def Chain.init (balances : List (Key × Nat)) : Chain :=
  { campaigns := [], records := [], balances := balances }

/-- States reachable by some sequence of successful transactions from a
genesis state. -/
inductive Reachable : Chain → Prop where
  | init (balances : List (Key × Nat)) : Reachable (Chain.init balances)
  | step (s t : Chain) (hs : Reachable s) (hst : Step s t) : Reachable t

/-- Zero or more transactions. -/
def Steps : Chain → Chain → Prop := Relation.ReflTransGen Step

theorem reachable_steps {s t : Chain} (hs : Reachable s) (hst : Steps s t) :
    Reachable t := by
  induction hst with
  | refl => exact hs
  | tail _ h ih => exact Reachable.step _ _ ih h

/-! ### Success characterizations of the instruction bodies -/

theorem create_ok_iff {creator : Key} {title description : String}
    {goal_amount : Nat} {deadline : Int} {metadata_uri : String}
    {now : Int} {bump : Nat} {camp : Campaign} :
    create_campaign creator title description goal_amount deadline metadata_uri
        now bump = .ok camp ↔
      0 < goal_amount ∧ now < deadline ∧
      title.utf8ByteSize ≤ 200 ∧ description.utf8ByteSize ≤ 1000 ∧
      metadata_uri.utf8ByteSize ≤ 200 ∧
      camp = { creator := creator, title := title, description := description
               goal_amount := goal_amount, donated_amount := 0
               deadline := deadline, metadata_uri := metadata_uri
               created_at := now, is_active := true, bump := bump } := by
  constructor
  · intro h
    unfold create_campaign at h
    split_ifs at h with h1 h2 h3 h4 h5 <;> cases h
    exact ⟨by omega, by omega, by omega, by omega, by omega, rfl⟩
  · rintro ⟨c1, c2, c3, c4, c5, hres⟩
    subst hres
    unfold create_campaign
    rw [if_neg (by omega), if_neg (by omega), if_neg (by omega),
      if_neg (by omega), if_neg (by omega)]

theorem donate_ok_iff {campaign : Campaign} {campaign_key donor : Key}
    {donor_lamports campaign_lamports amount : Nat} {timestamp : Int}
    {record_bump : Nat} {res : DonateOk} :
    donate campaign campaign_key donor donor_lamports campaign_lamports
        amount timestamp record_bump = .ok res ↔
      amount ≤ donor_lamports ∧
      campaign.donated_amount + amount ≤ U64_MAX ∧
      res = { campaign :=
                { campaign with donated_amount := campaign.donated_amount + amount }
              record := { donor := donor, campaign := campaign_key
                          amount := amount, timestamp := timestamp
                          bump := record_bump }
              donor_lamports := donor_lamports - amount
              campaign_lamports := campaign_lamports + amount } := by
  constructor
  · intro h
    unfold donate at h
    split_ifs at h with h1 h2 <;> cases h
    exact ⟨by omega, by omega, rfl⟩
  · rintro ⟨c1, c2, hres⟩
    subst hres
    unfold donate
    rw [if_neg (by omega), if_neg (by omega)]

theorem withdraw_ok_iff {campaign : Campaign} {creator : Key}
    {campaign_lamports creator_lamports rent_exempt_balance : Nat}
    {now : Int} {res : WithdrawOk} :
    withdraw campaign creator campaign_lamports creator_lamports
        rent_exempt_balance now = .ok res ↔
      campaign.creator = creator ∧ campaign.is_active = true ∧
      campaign.deadline ≤ now ∧
      campaign.goal_amount ≤ campaign.donated_amount ∧
      rent_exempt_balance ≤ campaign_lamports ∧
      creator_lamports + (campaign_lamports - rent_exempt_balance) ≤ U64_MAX ∧
      res = { campaign := { campaign with is_active := false }
              campaign_lamports := rent_exempt_balance
              creator_lamports :=
                creator_lamports + (campaign_lamports - rent_exempt_balance)
              withdrawn := campaign_lamports - rent_exempt_balance } := by
  constructor
  · intro h
    unfold withdraw at h
    split_ifs at h with h1 h2 h3 h4 h5 h6 <;> cases h
    exact ⟨by simpa using h1, by simpa using h2, by omega, by omega, by omega,
      by omega, rfl⟩
  · rintro ⟨c1, c2, c3, c4, c5, c6, hres⟩
    subst hres
    unfold withdraw
    rw [if_neg (by simp [c1]), if_neg (by simp [c2]), if_neg (by omega),
      if_neg (by omega), if_neg (by omega), if_neg (by omega)]

theorem refund_ok_iff {campaign : Campaign} {campaign_key donor : Key}
    {donation_record : DonationRecord}
    {campaign_lamports donor_lamports : Nat} {now : Int} {res : RefundOk} :
    refund campaign campaign_key donor donation_record campaign_lamports
        donor_lamports now = .ok res ↔
      donation_record.donor = donor ∧
      donation_record.campaign = campaign_key ∧
      campaign.deadline ≤ now ∧
      campaign.donated_amount < campaign.goal_amount ∧
      donation_record.amount ≤ campaign_lamports ∧
      donor_lamports + donation_record.amount ≤ U64_MAX ∧
      donation_record.amount ≤ campaign.donated_amount ∧
      res = { campaign := { campaign with donated_amount :=
                campaign.donated_amount - donation_record.amount }
              campaign_lamports := campaign_lamports - donation_record.amount
              donor_lamports := donor_lamports + donation_record.amount
              refunded := donation_record.amount } := by
  constructor
  · intro h
    unfold refund at h
    split_ifs at h with h1 h2 h3 h4 h5 h6 h7 <;> cases h
    exact ⟨by simpa using h1, by simpa using h2, by omega, by omega, by omega,
      by omega, by omega, rfl⟩
  · rintro ⟨c1, c2, c3, c4, c5, c6, c7, hres⟩
    subst hres
    unfold refund
    rw [if_neg (by simp [c1]), if_neg (by simp [c2]), if_neg (by omega),
      if_neg (by omega), if_neg (by omega), if_neg (by omega), if_neg (by omega)]

theorem delete_ok_iff {campaign : Campaign} {creator : Key} :
    delete_campaign campaign creator = .ok () ↔
      campaign.creator = creator ∧ campaign.donated_amount = 0 := by
  constructor
  · intro h
    unfold delete_campaign at h
    split_ifs at h with h1 h2 <;> try cases h
    exact ⟨by simpa using h1, by omega⟩
  · rintro ⟨c1, c2⟩
    unfold delete_campaign
    rw [if_neg (by simp [c1]), if_neg (by simp [c2])]

/-! ### The bookkeeping invariant -/

/-- Bookkeeping invariant maintained by every transaction: account keys
are unique, deleted campaigns leave no live donation value behind, and
every live campaign has a positive goal, a `donated_amount` equal to the
total of its live donation records, and — once deactivated by a
successful withdrawal — a `donated_amount` at or above its goal. -/
def Inv (s : Chain) : Prop :=
  (akeys s.campaigns).Nodup ∧
  (akeys s.records).Nodup ∧
  (∀ ck, alookup s.campaigns ck = none → sumAlive s.records ck = 0) ∧
  (∀ ck camp, alookup s.campaigns ck = some camp →
    0 < camp.goal_amount ∧
    camp.donated_amount = sumAlive s.records ck ∧
    (camp.is_active = false → camp.goal_amount ≤ camp.donated_amount))

theorem inv_init (balances : List (Key × Nat)) : Inv (Chain.init balances) := by
  refine ⟨List.nodup_nil, List.nodup_nil, ?_, ?_⟩
  · intro ck _
    rfl
  · intro ck camp h
    simp [Chain.init, alookup] at h

theorem inv_step {s t : Chain} (hs : Inv s) (hst : Step s t) : Inv t := by
  obtain ⟨hndC, hndR, hnone, hcamp⟩ := hs
  cases hst with
  | create_tx ck creator title description goal_amount deadline metadata_uri
      now bump camp hfresh hok =>
    obtain ⟨hg, _, _, _, _, hcampeq⟩ := create_ok_iff.1 hok
    refine ⟨?_, hndR, ?_, ?_⟩
    · simp only [akeys, List.map_cons, List.nodup_cons]
      exact ⟨(alookup_none_iff_not_mem s.campaigns ck).1 hfresh, hndC⟩
    · intro ck0 h0
      simp only [alookup] at h0
      by_cases hk : ck0 = ck
      · simp [hk] at h0
      · simp only [if_neg hk] at h0
        exact hnone ck0 h0
    · intro ck0 camp0 h0
      simp only [alookup] at h0
      by_cases hk : ck0 = ck
      · simp only [if_pos hk, Option.some.injEq] at h0
        subst h0
        subst hcampeq
        refine ⟨hg, ?_, ?_⟩
        · rw [hk]
          exact (hnone ck hfresh).symm
        · intro hfalse
          cases hfalse
      · simp only [if_neg hk] at h0
        exact hcamp ck0 camp0 h0
  | donate_tx ck donor rk camp amount timestamp record_bump res hc hfresh hok =>
    obtain ⟨hd, hcap, hreseq⟩ := donate_ok_iff.1 hok
    subst hreseq
    refine ⟨?_, ?_, ?_, ?_⟩
    · rw [akeys_aset]
      exact hndC
    · simp only [akeys, List.map_cons, List.nodup_cons]
      exact ⟨(alookup_none_iff_not_mem s.records rk).1 hfresh, hndR⟩
    · intro ck0 h0
      by_cases hk : ck0 = ck
      · subst hk
        rw [alookup_aset_eq s.campaigns ck0 _ camp hc] at h0
        cases h0
      · rw [alookup_aset_ne s.campaigns ck ck0 _ hk] at h0
        have hz := hnone ck0 h0
        have hne : ck ≠ ck0 := fun hh => hk hh.symm
        simp [sumAlive, hne, hz]
    · intro ck0 camp0 h0
      by_cases hk : ck0 = ck
      · subst hk
        rw [alookup_aset_eq s.campaigns ck0 _ camp hc] at h0
        cases h0
        obtain ⟨hg, hsum, hia⟩ := hcamp ck0 camp hc
        refine ⟨hg, ?_, ?_⟩
        · simp [sumAlive, hsum]
          omega
        · intro hfalse
          have := hia hfalse
          simp only []
          omega
      · rw [alookup_aset_ne s.campaigns ck ck0 _ hk] at h0
        obtain ⟨hg, hsum, hia⟩ := hcamp ck0 camp0 h0
        have hne : ck ≠ ck0 := fun hh => hk hh.symm
        refine ⟨hg, ?_, hia⟩
        simp [sumAlive, hne, hsum]
  | withdraw_tx ck creator camp rent_exempt_balance now res hc hok =>
    obtain ⟨hcr, hact, hdl, hgoal, hrent, hcap, hreseq⟩ := withdraw_ok_iff.1 hok
    subst hreseq
    refine ⟨?_, hndR, ?_, ?_⟩
    · rw [akeys_aset]
      exact hndC
    · intro ck0 h0
      by_cases hk : ck0 = ck
      · subst hk
        rw [alookup_aset_eq s.campaigns ck0 _ camp hc] at h0
        cases h0
      · rw [alookup_aset_ne s.campaigns ck ck0 _ hk] at h0
        exact hnone ck0 h0
    · intro ck0 camp0 h0
      by_cases hk : ck0 = ck
      · subst hk
        rw [alookup_aset_eq s.campaigns ck0 _ camp hc] at h0
        cases h0
        obtain ⟨hg, hsum, _⟩ := hcamp ck0 camp hc
        exact ⟨hg, hsum, fun _ => hgoal⟩
      · rw [alookup_aset_ne s.campaigns ck ck0 _ hk] at h0
        exact hcamp ck0 camp0 h0
  | refund_tx ck donor rk camp rec now res hc hr hok =>
    obtain ⟨hdn, hrc, hdl, hlt, hcl, hcap, hle, hreseq⟩ := refund_ok_iff.1 hok
    subst hreseq
    refine ⟨?_, ?_, ?_, ?_⟩
    · rw [akeys_aset]
      exact hndC
    · exact hndR.sublist (akeys_aremove_sublist s.records rk)
    · intro ck0 h0
      by_cases hk : ck0 = ck
      · subst hk
        rw [alookup_aset_eq s.campaigns ck0 _ camp hc] at h0
        cases h0
      · rw [alookup_aset_ne s.campaigns ck ck0 _ hk] at h0
        have hz := hnone ck0 h0
        have hsplit0 := sumAlive_aremove s.records rk ck0 rec hr
        show sumAlive (aremove s.records rk) ck0 = 0
        omega
    · intro ck0 camp0 h0
      by_cases hk : ck0 = ck
      · subst hk
        rw [alookup_aset_eq s.campaigns ck0 _ camp hc] at h0
        cases h0
        obtain ⟨hg, hsum, hia⟩ := hcamp ck0 camp hc
        have hsplit0 := sumAlive_aremove s.records rk ck0 rec hr
        rw [if_pos hrc] at hsplit0
        refine ⟨hg, ?_, ?_⟩
        · show camp.donated_amount - rec.amount = sumAlive (aremove s.records rk) ck0
          omega
        · intro hfalse
          have := hia hfalse
          omega
      · rw [alookup_aset_ne s.campaigns ck ck0 _ hk] at h0
        obtain ⟨hg, hsum, hia⟩ := hcamp ck0 camp0 h0
        have hne : rec.campaign ≠ ck0 := by
          rw [hrc]
          exact fun hh => hk hh.symm
        have hsplit0 := sumAlive_aremove s.records rk ck0 rec hr
        rw [if_neg hne] at hsplit0
        refine ⟨hg, ?_, hia⟩
        show camp0.donated_amount = sumAlive (aremove s.records rk) ck0
        omega
  | delete_tx ck creator camp hc hok =>
    obtain ⟨hcr, hzero⟩ := delete_ok_iff.1 hok
    refine ⟨?_, hndR, ?_, ?_⟩
    · exact hndC.sublist (akeys_aremove_sublist s.campaigns ck)
    · intro ck0 h0
      by_cases hk : ck0 = ck
      · subst hk
        obtain ⟨_, hsum, _⟩ := hcamp ck0 camp hc
        show sumAlive s.records ck0 = 0
        omega
      · rw [alookup_aremove_ne s.campaigns ck ck0 hk] at h0
        exact hnone ck0 h0
    · intro ck0 camp0 h0
      by_cases hk : ck0 = ck
      · subst hk
        rw [alookup_aremove_self s.campaigns ck0 hndC] at h0
        cases h0
      · rw [alookup_aremove_ne s.campaigns ck ck0 hk] at h0
        exact hcamp ck0 camp0 h0

theorem reachable_inv {s : Chain} (hs : Reachable s) : Inv s := by
  induction hs with
  | init balances => exact inv_init balances
  | step s t _ hst ih => exact inv_step ih hst

theorem inv_steps {s t : Chain} (hs : Inv s) (hst : Steps s t) : Inv t := by
  induction hst with
  | refl => exact hs
  | tail _ h ih => exact inv_step ih h

/-- Once a campaign account stores `is_active = false`, no later
transaction revives or removes it: donate keeps `is_active` unchanged,
withdraw requires `is_active = true`, refund requires the goal to be
unreached while the invariant forces it to be reached, delete requires
`donated_amount = 0` while the invariant forces it positive, and create
cannot reuse the occupied address. -/
theorem inactive_persists_step {s t : Chain} (hs : Inv s) (hst : Step s t)
    {ck : Key} {c : Campaign} (hc : alookup s.campaigns ck = some c)
    (hia : c.is_active = false) :
    ∃ c2, alookup t.campaigns ck = some c2 ∧ c2.is_active = false := by
  obtain ⟨hndC, hndR, hnone, hcamp⟩ := hs
  cases hst with
  | create_tx ckx creator title description goal_amount deadline metadata_uri
      now bump camp hfresh hok =>
    by_cases hk : ck = ckx
    · subst hk
      rw [hfresh] at hc
      cases hc
    · refine ⟨c, ?_, hia⟩
      show alookup ((ckx, camp) :: s.campaigns) ck = some c
      simp only [alookup, if_neg hk]
      exact hc
  | donate_tx ckx donor rk camp amount timestamp record_bump res hc2 hfresh hok =>
    obtain ⟨_, _, hreseq⟩ := donate_ok_iff.1 hok
    subst hreseq
    by_cases hk : ck = ckx
    · subst hk
      rw [hc] at hc2
      cases hc2
      exact ⟨_, alookup_aset_eq s.campaigns ck _ c hc, hia⟩
    · have hk2 : ck ≠ ckx := hk
      refine ⟨c, ?_, hia⟩
      show alookup (aset s.campaigns ckx _) ck = some c
      rw [alookup_aset_ne s.campaigns ckx ck _ hk2]
      exact hc
  | withdraw_tx ckx creator camp rent_exempt_balance now res hc2 hok =>
    obtain ⟨_, hact, _, _, _, _, hreseq⟩ := withdraw_ok_iff.1 hok
    subst hreseq
    by_cases hk : ck = ckx
    · subst hk
      rw [hc] at hc2
      cases hc2
      rw [hia] at hact
      cases hact
    · refine ⟨c, ?_, hia⟩
      show alookup (aset s.campaigns ckx _) ck = some c
      rw [alookup_aset_ne s.campaigns ckx ck _ hk]
      exact hc
  | refund_tx ckx donor rk camp rec now res hc2 hr hok =>
    obtain ⟨_, _, _, hlt, _, _, _, hreseq⟩ := refund_ok_iff.1 hok
    subst hreseq
    by_cases hk : ck = ckx
    · subst hk
      rw [hc] at hc2
      cases hc2
      obtain ⟨_, _, hge⟩ := hcamp ck c hc
      have := hge hia
      omega
    · refine ⟨c, ?_, hia⟩
      show alookup (aset s.campaigns ckx _) ck = some c
      rw [alookup_aset_ne s.campaigns ckx ck _ hk]
      exact hc
  | delete_tx ckx creator camp hc2 hok =>
    obtain ⟨_, hzero⟩ := delete_ok_iff.1 hok
    by_cases hk : ck = ckx
    · subst hk
      rw [hc] at hc2
      cases hc2
      obtain ⟨hg, _, hge⟩ := hcamp ck c hc
      have := hge hia
      omega
    · refine ⟨c, ?_, hia⟩
      show alookup (aremove s.campaigns ckx) ck = some c
      rw [alookup_aremove_ne s.campaigns ckx ck hk]
      exact hc

theorem inactive_persists {s t : Chain} (hs : Inv s) (hst : Steps s t)
    {ck : Key} {c : Campaign} (hc : alookup s.campaigns ck = some c)
    (hia : c.is_active = false) :
    ∃ c2, alookup t.campaigns ck = some c2 ∧ c2.is_active = false := by
  induction hst with
  | refl => exact ⟨c, hc, hia⟩
  | tail hab hbc ih =>
    obtain ⟨c2, hc2, hia2⟩ := ih
    exact inactive_persists_step (inv_steps hs hab) hbc hc2 hia2

/-! ### Claims -/

/-- C1: for every reachable state (any sequence of create, donate,
withdraw, refund, delete transactions) and every campaign in it, the
campaign's `donated_amount` equals the sum of the amounts of all
donation records currently alive (created by donate and not destroyed
by refund) that reference that campaign. -/
theorem claim_C1 (s : Chain) (hs : Reachable s) (ck : Key) (camp : Campaign)
    (hc : alookup s.campaigns ck = some camp) :
    camp.donated_amount = sumAlive s.records ck :=
  ((reachable_inv hs).2.2.2 ck camp hc).2.1

def balW1 : List (Key × Nat) := [(7, 1000)]

def campW1 : Campaign :=
  { creator := 1, title := "t", description := "d", goal_amount := 50
    donated_amount := 0, deadline := 10, metadata_uri := "u"
    created_at := 0, is_active := true, bump := 255 }

def chainW1a : Chain :=
  { Chain.init balW1 with
      campaigns := (100, campW1) :: (Chain.init balW1).campaigns }

def donW1 : DonateOk :=
  { campaign := { campW1 with donated_amount := 30 }
    record := { donor := 7, campaign := 100, amount := 30, timestamp := 3, bump := 254 }
    donor_lamports := 970
    campaign_lamports := 30 }

def chainW1b : Chain :=
  { campaigns := aset chainW1a.campaigns 100 donW1.campaign
    records := (200, donW1.record) :: chainW1a.records
    balances := aupsert (aupsert chainW1a.balances 7 donW1.donor_lamports)
      100 donW1.campaign_lamports }

theorem chainW1b_reachable : Reachable chainW1b :=
  Reachable.step chainW1a chainW1b
    (Reachable.step (Chain.init balW1) chainW1a (Reachable.init balW1)
      (Step.create_tx (Chain.init balW1) 100 1 "t" "d" 50 10 "u" 0 255 campW1
        (by decide) (by decide)))
    (Step.donate_tx chainW1a 100 7 200 campW1 30 3 254 donW1
      (by decide) (by decide) (by decide))

/-- Witness for C1: a concrete two-transaction history (create, then a
donation of 30) whose final state satisfies the invariant. -/
theorem claim_C1_witness :
    alookup chainW1b.campaigns 100 = some donW1.campaign ∧
    donW1.campaign.donated_amount = sumAlive chainW1b.records 100 :=
  ⟨by decide, claim_C1 chainW1b chainW1b_reachable 100 donW1.campaign (by decide)⟩

def campW2 : Campaign :=
  { creator := 1, title := "t", description := "d", goal_amount := 1000
    donated_amount := 0, deadline := 100, metadata_uri := "u"
    created_at := 0, is_active := true, bump := 255 }

def campW2i : Campaign := { campW2 with is_active := false }

/-- C2 (refuting evaluation): the claim says `donate` rejects
`amount = 0` with `InvalidDonationAmount`, rejects inactive campaigns
with `CampaignNotActive`, and rejects expired campaigns with
`CampaignExpired`. In the source, the body of `donate` (lib.rs lines
50-78) contains no validation whatsoever — it never reads the clock,
never tests `is_active`, and never compares `amount` with zero; the
three error codes are declared but unused. Concretely: a donation of 0
to an active campaign succeeds, creates a zero-amount DonationRecord,
and leaves `donated_amount` unchanged; a donation of 40 to a campaign
already deactivated by a successful withdrawal also succeeds. (`donate`
takes no clock input at all, so its result cannot depend on the
deadline.) -/
theorem claim_C2 :
    donate campW2 100 7 1000 0 0 5 254 =
      .ok { campaign := campW2
            record := { donor := 7, campaign := 100, amount := 0
                        timestamp := 5, bump := 254 }
            donor_lamports := 1000
            campaign_lamports := 0 } ∧
    campW2i.is_active = false ∧
    txOk (donate campW2i 100 7 1000 0 40 5 254) = true := by
  refine ⟨?_, ?_, ?_⟩ <;> decide

def campW3 : Campaign :=
  { creator := 1, title := "t", description := "d", goal_amount := 1000
    donated_amount := U64_MAX, deadline := 100, metadata_uri := "u"
    created_at := 0, is_active := true, bump := 255 }

/-- C3 (refuting evaluation): the claim says a donate that would push
`donated_amount` past `u64::MAX` fails with an `Overflow` error. The
source performs `campaign.donated_amount += amount` (line 69) — plain
unchecked addition, not `checked_add`, so `ErrorCode::Overflow` is never
produced by `donate`: under a build profile with overflow checks the
transaction aborts with an arithmetic trap (modelled here), and without
them the value silently wraps; either way no typed `Overflow` error is
returned. At `donated_amount = u64::MAX` a donation of 1 aborts with
the trap, which is a different `TxError` constructor than
`TxError.code ErrorCode.Overflow`. -/
theorem claim_C3 :
    donate campW3 100 7 10 0 1 5 254 = .error .arithmeticTrap ∧
    txOk (donate campW3 100 7 10 0 1 5 254) = false := by
  refine ⟨?_, ?_⟩ <;> decide

theorem withdraw_unauthorized {c : Campaign} {k : Key} (cl crl rent : Nat)
    (now : Int) (h : c.creator ≠ k) :
    withdraw c k cl crl rent now = .error (.code .Unauthorized) := by
  unfold withdraw
  rw [if_pos h]

theorem withdraw_not_active {c : Campaign} {k : Key} (cl crl rent : Nat)
    (now : Int) (h1 : c.creator = k) (h2 : c.is_active = false) :
    withdraw c k cl crl rent now = .error (.code .CampaignNotActive) := by
  unfold withdraw
  rw [if_neg (not_not_intro h1), if_pos h2]

/-- C4: `withdraw` succeeds only when the requester is the campaign
creator (otherwise `Unauthorized`), the campaign is active (otherwise
`CampaignNotActive`), the deadline has passed (otherwise
`CampaignNotExpired`) and the goal is reached (otherwise
`GoalNotReached`); on success it deactivates the campaign, and from any
reachable state in which the campaign is inactive, after any further
transaction sequence the campaign is still inactive and every withdraw
on it fails — with `CampaignNotActive` for the creator (the check order
reports `Unauthorized` first for any other requester, as the first
clause of the claim states). Hence withdraw succeeds at most once per
campaign. -/
theorem claim_C4 :
    (∀ (c : Campaign) (k : Key) (cl crl rent : Nat) (now : Int)
      (res : WithdrawOk), withdraw c k cl crl rent now = .ok res →
      c.creator = k ∧ c.is_active = true ∧ c.deadline ≤ now ∧
      c.goal_amount ≤ c.donated_amount ∧ res.campaign.is_active = false) ∧
    (∀ (c : Campaign) (k : Key) (cl crl rent : Nat) (now : Int),
      c.creator ≠ k →
      withdraw c k cl crl rent now = .error (.code .Unauthorized)) ∧
    (∀ (c : Campaign) (k : Key) (cl crl rent : Nat) (now : Int),
      c.creator = k → c.is_active = false →
      withdraw c k cl crl rent now = .error (.code .CampaignNotActive)) ∧
    (∀ (c : Campaign) (k : Key) (cl crl rent : Nat) (now : Int),
      c.creator = k → c.is_active = true → now < c.deadline →
      withdraw c k cl crl rent now = .error (.code .CampaignNotExpired)) ∧
    (∀ (c : Campaign) (k : Key) (cl crl rent : Nat) (now : Int),
      c.creator = k → c.is_active = true → c.deadline ≤ now →
      c.donated_amount < c.goal_amount →
      withdraw c k cl crl rent now = .error (.code .GoalNotReached)) ∧
    (∀ (s t : Chain) (ck : Key) (c : Campaign), Reachable s → Steps s t →
      alookup s.campaigns ck = some c → c.is_active = false →
      ∃ c2, alookup t.campaigns ck = some c2 ∧ c2.is_active = false ∧
        ∀ (k : Key) (cl crl rent : Nat) (now : Int),
          withdraw c2 k cl crl rent now =
            .error (.code (if c2.creator = k then ErrorCode.CampaignNotActive
              else ErrorCode.Unauthorized))) := by
  refine ⟨?_, ?_, ?_, ?_, ?_, ?_⟩
  · intro c k cl crl rent now res h
    obtain ⟨h1, h2, h3, h4, _, _, hres⟩ := withdraw_ok_iff.1 h
    subst hres
    exact ⟨h1, h2, h3, h4, rfl⟩
  · intro c k cl crl rent now h
    exact withdraw_unauthorized cl crl rent now h
  · intro c k cl crl rent now h1 h2
    exact withdraw_not_active cl crl rent now h1 h2
  · intro c k cl crl rent now h1 h2 h3
    unfold withdraw
    rw [if_neg (not_not_intro h1), if_neg (by simp [h2]), if_pos h3]
  · intro c k cl crl rent now h1 h2 h3 h4
    unfold withdraw
    rw [if_neg (not_not_intro h1), if_neg (by simp [h2]),
      if_neg (not_lt.mpr h3), if_pos h4]
  · intro s t ck c hs hst hc hia
    obtain ⟨c2, hc2, hia2⟩ := inactive_persists (reachable_inv hs) hst hc hia
    refine ⟨c2, hc2, hia2, ?_⟩
    intro k cl crl rent now
    by_cases hck : c2.creator = k
    · rw [if_pos hck]
      exact withdraw_not_active cl crl rent now hck hia2
    · rw [if_neg hck]
      exact withdraw_unauthorized cl crl rent now hck

def campW4 : Campaign :=
  { creator := 1, title := "t", description := "d", goal_amount := 5
    donated_amount := 5, deadline := 10, metadata_uri := "u"
    created_at := 0, is_active := true, bump := 255 }

def wresW4 : WithdrawOk :=
  { campaign := { campW4 with is_active := false }
    campaign_lamports := 40, creator_lamports := 60, withdrawn := 60 }

/-- Witness for C4: a concrete campaign (goal 5 reached, deadline 10
passed) on which withdraw by the creator succeeds and deactivates it. -/
theorem claim_C4_witness :
    withdraw campW4 1 100 0 40 10 = .ok wresW4 ∧
    wresW4.campaign.is_active = false :=
  ⟨by decide, (claim_C4.1 campW4 1 100 0 40 10 wresW4 (by decide)).2.2.2.2⟩

/-- C5: a successful withdraw pays the creator exactly the campaign
escrow balance minus the externally supplied rent-exempt reserve, and
the campaign account keeps exactly the reserve; when the reserve
exceeds the balance, a withdraw that passed the four validations fails
with `InsufficientFunds` — and a failed transaction commits nothing
(`Step` only exists for successful instruction results), so no value
moves. -/
theorem claim_C5 :
    (∀ (c : Campaign) (k : Key) (cl crl rent : Nat) (now : Int)
      (res : WithdrawOk), withdraw c k cl crl rent now = .ok res →
      rent ≤ cl ∧ res.withdrawn = cl - rent ∧
      res.campaign_lamports = rent ∧
      res.creator_lamports = crl + (cl - rent)) ∧
    (∀ (c : Campaign) (k : Key) (cl crl rent : Nat) (now : Int),
      c.creator = k → c.is_active = true → c.deadline ≤ now →
      c.goal_amount ≤ c.donated_amount → cl < rent →
      withdraw c k cl crl rent now = .error (.code .InsufficientFunds)) := by
  constructor
  · intro c k cl crl rent now res h
    obtain ⟨_, _, _, _, h5, _, hres⟩ := withdraw_ok_iff.1 h
    subst hres
    exact ⟨h5, rfl, rfl, rfl⟩
  · intro c k cl crl rent now h1 h2 h3 h4 h5
    unfold withdraw
    rw [if_neg (not_not_intro h1), if_neg (by simp [h2]),
      if_neg (not_lt.mpr h3), if_neg (not_lt.mpr h4), if_pos h5]

def campW5 : Campaign :=
  { creator := 1, title := "t", description := "d", goal_amount := 5
    donated_amount := 5, deadline := 10, metadata_uri := "u"
    created_at := 0, is_active := true, bump := 255 }

/-- Witness for C5: with an escrow balance of 10 below a reserve of 40,
an otherwise valid withdraw fails with `InsufficientFunds`. -/
theorem claim_C5_witness :
    withdraw campW5 1 10 0 40 10 = .error (.code .InsufficientFunds) :=
  claim_C5.2 campW5 1 10 0 40 10 rfl rfl (by decide) (by decide) (by decide)

/-- C6: `refund` succeeds only when the record donor matches the
requester (otherwise `Unauthorized`), the record references the given
campaign (otherwise `InvalidCampaign`), the deadline has passed
(otherwise `CampaignNotExpired`) and the goal is unreached (otherwise
`GoalReached`); on success it moves exactly the record amount from the
campaign escrow back to the donor and decrements `donated_amount` by it
(checked subtraction: `Underflow` when the amount exceeds
`donated_amount`); the record account is then closed, so it is no
longer present and cannot be refunded again. -/
theorem claim_C6 :
    (∀ (c : Campaign) (ck donor : Key) (rec : DonationRecord)
      (cl dl : Nat) (now : Int) (res : RefundOk),
      refund c ck donor rec cl dl now = .ok res →
      rec.donor = donor ∧ rec.campaign = ck ∧ c.deadline ≤ now ∧
      c.donated_amount < c.goal_amount ∧
      res.donor_lamports = dl + rec.amount ∧
      res.campaign_lamports = cl - rec.amount ∧
      rec.amount ≤ c.donated_amount ∧
      res.campaign.donated_amount = c.donated_amount - rec.amount) ∧
    (∀ (c : Campaign) (ck donor : Key) (rec : DonationRecord)
      (cl dl : Nat) (now : Int), rec.donor ≠ donor →
      refund c ck donor rec cl dl now = .error (.code .Unauthorized)) ∧
    (∀ (c : Campaign) (ck donor : Key) (rec : DonationRecord)
      (cl dl : Nat) (now : Int), rec.donor = donor → rec.campaign ≠ ck →
      refund c ck donor rec cl dl now = .error (.code .InvalidCampaign)) ∧
    (∀ (c : Campaign) (ck donor : Key) (rec : DonationRecord)
      (cl dl : Nat) (now : Int), rec.donor = donor → rec.campaign = ck →
      now < c.deadline →
      refund c ck donor rec cl dl now = .error (.code .CampaignNotExpired)) ∧
    (∀ (c : Campaign) (ck donor : Key) (rec : DonationRecord)
      (cl dl : Nat) (now : Int), rec.donor = donor → rec.campaign = ck →
      c.deadline ≤ now → c.goal_amount ≤ c.donated_amount →
      refund c ck donor rec cl dl now = .error (.code .GoalReached)) ∧
    (∀ (c : Campaign) (ck donor : Key) (rec : DonationRecord)
      (cl dl : Nat) (now : Int), rec.donor = donor → rec.campaign = ck →
      c.deadline ≤ now → c.donated_amount < c.goal_amount →
      rec.amount ≤ cl → dl + rec.amount ≤ U64_MAX →
      c.donated_amount < rec.amount →
      refund c ck donor rec cl dl now = .error (.code .Underflow)) ∧
    (∀ (records : List (Key × DonationRecord)) (rk : Key)
      (rec : DonationRecord), (akeys records).Nodup →
      alookup records rk = some rec →
      alookup (aremove records rk) rk = none) := by
  refine ⟨?_, ?_, ?_, ?_, ?_, ?_, ?_⟩
  · intro c ck donor rec cl dl now res h
    obtain ⟨h1, h2, h3, h4, _, _, h7, hres⟩ := refund_ok_iff.1 h
    subst hres
    exact ⟨h1, h2, h3, h4, rfl, rfl, h7, rfl⟩
  · intro c ck donor rec cl dl now h
    unfold refund
    rw [if_pos h]
  · intro c ck donor rec cl dl now h1 h2
    unfold refund
    rw [if_neg (not_not_intro h1), if_pos h2]
  · intro c ck donor rec cl dl now h1 h2 h3
    unfold refund
    rw [if_neg (not_not_intro h1), if_neg (not_not_intro h2), if_pos h3]
  · intro c ck donor rec cl dl now h1 h2 h3 h4
    unfold refund
    rw [if_neg (not_not_intro h1), if_neg (not_not_intro h2),
      if_neg (not_lt.mpr h3), if_pos h4]
  · intro c ck donor rec cl dl now h1 h2 h3 h4 h5 h6 h7
    unfold refund
    rw [if_neg (not_not_intro h1), if_neg (not_not_intro h2),
      if_neg (not_lt.mpr h3), if_neg (not_le.mpr h4),
      if_neg (not_lt.mpr h5), if_neg (not_lt.mpr h6), if_pos h7]
  · intro records rk rec hnd _
    exact alookup_aremove_self records rk hnd

def campW6 : Campaign :=
  { creator := 1, title := "t", description := "d", goal_amount := 100
    donated_amount := 30, deadline := 10, metadata_uri := "u"
    created_at := 0, is_active := true, bump := 255 }

def recW6 : DonationRecord :=
  { donor := 7, campaign := 100, amount := 30, timestamp := 3, bump := 254 }

def rresW6 : RefundOk :=
  { campaign := { campW6 with donated_amount := 0 }
    campaign_lamports := 470, donor_lamports := 50, refunded := 30 }

/-- Witness for C6: a concrete failed campaign (30 of 100 raised,
deadline 10 passed) on which the donor of the 30-lamport record is
refunded exactly 30. -/
theorem claim_C6_witness :
    refund campW6 100 7 recW6 500 20 10 = .ok rresW6 ∧
    rresW6.donor_lamports = 20 + recW6.amount :=
  ⟨by decide,
    (claim_C6.1 campW6 100 7 recW6 500 20 10 rresW6 (by decide)).2.2.2.2.1⟩

/-- C7: for every campaign state, a successful donate of some amount
immediately followed by a successful refund of the donation record
created by that donate restores `donated_amount` to exactly its value
before the donate. -/
theorem claim_C7 (c : Campaign) (ck donor : Key) (dl cl amount : Nat)
    (ts : Int) (rb : Nat) (r1 : DonateOk) (cl2 dl2 : Nat) (now : Int)
    (r2 : RefundOk)
    (h1 : donate c ck donor dl cl amount ts rb = .ok r1)
    (h2 : refund r1.campaign ck donor r1.record cl2 dl2 now = .ok r2) :
    r2.campaign.donated_amount = c.donated_amount := by
  obtain ⟨_, _, hr1⟩ := donate_ok_iff.1 h1
  subst hr1
  obtain ⟨_, _, _, _, _, _, _, hr2⟩ := refund_ok_iff.1 h2
  subst hr2
  show c.donated_amount + amount - amount = c.donated_amount
  omega

def campW7 : Campaign :=
  { creator := 1, title := "t", description := "d", goal_amount := 100
    donated_amount := 0, deadline := 10, metadata_uri := "u"
    created_at := 0, is_active := true, bump := 255 }

def donW7 : DonateOk :=
  { campaign := { campW7 with donated_amount := 30 }
    record := { donor := 7, campaign := 100, amount := 30, timestamp := 3, bump := 254 }
    donor_lamports := 970
    campaign_lamports := 530 }

def rresW7 : RefundOk :=
  { campaign := { campW7 with donated_amount := 0 }
    campaign_lamports := 500, donor_lamports := 1000, refunded := 30 }

/-- Witness for C7: donating 30 and then refunding that exact record
returns `donated_amount` to 0. -/
theorem claim_C7_witness :
    donate campW7 100 7 1000 500 30 3 254 = .ok donW7 ∧
    refund donW7.campaign 100 7 donW7.record 530 970 10 = .ok rresW7 ∧
    rresW7.campaign.donated_amount = campW7.donated_amount :=
  ⟨by decide, by decide,
    claim_C7 campW7 100 7 1000 500 30 3 254 donW7 530 970 10 rresW7
      (by decide) (by decide)⟩

/-- C8: the success conditions of withdraw and refund on the same
campaign state are mutually exclusive — withdraw requires
`goal_amount ≤ donated_amount` while refund requires
`donated_amount < goal_amount` — so whenever a withdraw succeeds, any
refund against the same campaign state fails, whatever record, balances
and clock reading it is given. -/
theorem claim_C8 (c : Campaign) (k : Key) (cl crl rent : Nat) (now : Int)
    (res : WithdrawOk) (h : withdraw c k cl crl rent now = .ok res)
    (ck donor : Key) (rec : DonationRecord) (cl2 dl2 : Nat) (now2 : Int) :
    txOk (refund c ck donor rec cl2 dl2 now2) = false := by
  obtain ⟨_, _, _, hge, _, _, _⟩ := withdraw_ok_iff.1 h
  cases hres : refund c ck donor rec cl2 dl2 now2 with
  | error e => rfl
  | ok r =>
    obtain ⟨_, _, _, h4, _⟩ := refund_ok_iff.1 hres
    omega

def campW8 : Campaign :=
  { creator := 1, title := "t", description := "d", goal_amount := 5
    donated_amount := 5, deadline := 10, metadata_uri := "u"
    created_at := 0, is_active := true, bump := 255 }

def wresW8 : WithdrawOk :=
  { campaign := { campW8 with is_active := false }
    campaign_lamports := 40, creator_lamports := 60, withdrawn := 60 }

def recW8 : DonationRecord :=
  { donor := 7, campaign := 100, amount := 5, timestamp := 3, bump := 254 }

/-- Witness for C8: on a campaign whose withdraw succeeds (goal 5
reached), the refund of a matching record fails. -/
theorem claim_C8_witness :
    txOk (refund campW8 100 7 recW8 500 20 10) = false :=
  claim_C8 campW8 1 100 0 40 10 wresW8 (by decide) 100 7 recW8 500 20 10

/-- C9: `delete_campaign` succeeds exactly when the requester is the
campaign creator and `donated_amount = 0`; a non-creator requester gets
`Unauthorized` (the first check, as the first clause of the claim
states), a creator requester with outstanding donations gets
`CampaignHasDonations`, any delete of a campaign with donations fails,
and no transaction removes a campaign whose `donated_amount` is
positive — the campaign remains. -/
theorem claim_C9 :
    (∀ (c : Campaign) (k : Key),
      delete_campaign c k = .ok () ↔ c.creator = k ∧ c.donated_amount = 0) ∧
    (∀ (c : Campaign) (k : Key), c.creator ≠ k →
      delete_campaign c k = .error (.code .Unauthorized)) ∧
    (∀ (c : Campaign) (k : Key), c.creator = k → 0 < c.donated_amount →
      delete_campaign c k = .error (.code .CampaignHasDonations)) ∧
    (∀ (c : Campaign) (k : Key), 0 < c.donated_amount →
      txOk (delete_campaign c k) = false) ∧
    (∀ (s t : Chain), Step s t → ∀ (ck : Key) (c : Campaign),
      alookup s.campaigns ck = some c → 0 < c.donated_amount →
      ∃ c2, alookup t.campaigns ck = some c2) := by
  refine ⟨?_, ?_, ?_, ?_, ?_⟩
  · intro c k
    exact delete_ok_iff
  · intro c k h
    unfold delete_campaign
    rw [if_pos h]
  · intro c k h1 h2
    unfold delete_campaign
    rw [if_neg (not_not_intro h1), if_pos (by omega)]
  · intro c k h
    cases hres : delete_campaign c k with
    | error e => rfl
    | ok u =>
      obtain ⟨_, hz⟩ := delete_ok_iff.1 hres
      omega
  · intro s t hst ck c hc hpos
    cases hst with
    | create_tx ckx creator title description goal_amount deadline metadata_uri
        now bump camp hfresh hok =>
      by_cases hk : ck = ckx
      · subst hk
        rw [hfresh] at hc
        cases hc
      · refine ⟨c, ?_⟩
        show alookup ((ckx, camp) :: s.campaigns) ck = some c
        simp only [alookup, if_neg hk]
        exact hc
    | donate_tx ckx donor rk camp amount timestamp record_bump res hc2 hfresh hok =>
      by_cases hk : ck = ckx
      · subst hk
        exact ⟨res.campaign, alookup_aset_eq s.campaigns ck _ c hc⟩
      · refine ⟨c, ?_⟩
        show alookup (aset s.campaigns ckx _) ck = some c
        rw [alookup_aset_ne s.campaigns ckx ck _ hk]
        exact hc
    | withdraw_tx ckx creator camp rent_exempt_balance now res hc2 hok =>
      by_cases hk : ck = ckx
      · subst hk
        exact ⟨res.campaign, alookup_aset_eq s.campaigns ck _ c hc⟩
      · refine ⟨c, ?_⟩
        show alookup (aset s.campaigns ckx _) ck = some c
        rw [alookup_aset_ne s.campaigns ckx ck _ hk]
        exact hc
    | refund_tx ckx donor rk camp rec now res hc2 hr hok =>
      by_cases hk : ck = ckx
      · subst hk
        exact ⟨res.campaign, alookup_aset_eq s.campaigns ck _ c hc⟩
      · refine ⟨c, ?_⟩
        show alookup (aset s.campaigns ckx _) ck = some c
        rw [alookup_aset_ne s.campaigns ckx ck _ hk]
        exact hc
    | delete_tx ckx creator camp hc2 hok =>
      obtain ⟨_, hz⟩ := delete_ok_iff.1 hok
      by_cases hk : ck = ckx
      · subst hk
        rw [hc] at hc2
        cases hc2
        omega
      · refine ⟨c, ?_⟩
        show alookup (aremove s.campaigns ckx) ck = some c
        rw [alookup_aremove_ne s.campaigns ckx ck hk]
        exact hc

def campW9 : Campaign :=
  { creator := 1, title := "t", description := "d", goal_amount := 1000
    donated_amount := 300, deadline := 100, metadata_uri := "u"
    created_at := 0, is_active := true, bump := 255 }

/-- Witness for C9: deleting a campaign holding 300 in donations fails
with `CampaignHasDonations` even for the creator. -/
theorem claim_C9_witness :
    delete_campaign campW9 1 = .error (.code .CampaignHasDonations) :=
  claim_C9.2.2.1 campW9 1 rfl (by decide)

/-- C10 (frame property): a successful donate or refund changes no
stored Campaign field other than `donated_amount`, and a successful
withdraw changes no stored Campaign field other than `is_active` —
`creator`, `title`, `description`, `goal_amount`, `deadline`,
`metadata_uri`, `created_at` and `bump` are untouched by all three; in
particular withdraw keeps `donated_amount` at its pre-withdraw value,
which is at least `goal_amount`; since every campaign produced by
`create_campaign` has a positive goal, a successfully withdrawn
campaign has positive `donated_amount` and so never satisfies the
`donated_amount = 0` precondition of `delete_campaign`. -/
theorem claim_C10 :
    (∀ (creator : Key) (title description : String) (goal_amount : Nat)
      (deadline : Int) (metadata_uri : String) (now : Int) (bump : Nat)
      (camp : Campaign),
      create_campaign creator title description goal_amount deadline
        metadata_uri now bump = .ok camp → 0 < camp.goal_amount) ∧
    (∀ (c : Campaign) (ck donor : Key) (dl cl amount : Nat) (ts : Int)
      (rb : Nat) (res : DonateOk),
      donate c ck donor dl cl amount ts rb = .ok res →
      res.campaign.creator = c.creator ∧ res.campaign.title = c.title ∧
      res.campaign.description = c.description ∧
      res.campaign.goal_amount = c.goal_amount ∧
      res.campaign.deadline = c.deadline ∧
      res.campaign.metadata_uri = c.metadata_uri ∧
      res.campaign.created_at = c.created_at ∧
      res.campaign.is_active = c.is_active ∧
      res.campaign.bump = c.bump ∧
      res.campaign.donated_amount = c.donated_amount + amount) ∧
    (∀ (c : Campaign) (ck donor : Key) (rec : DonationRecord)
      (cl dl : Nat) (now : Int) (res : RefundOk),
      refund c ck donor rec cl dl now = .ok res →
      res.campaign.creator = c.creator ∧ res.campaign.title = c.title ∧
      res.campaign.description = c.description ∧
      res.campaign.goal_amount = c.goal_amount ∧
      res.campaign.deadline = c.deadline ∧
      res.campaign.metadata_uri = c.metadata_uri ∧
      res.campaign.created_at = c.created_at ∧
      res.campaign.is_active = c.is_active ∧
      res.campaign.bump = c.bump ∧
      res.campaign.donated_amount = c.donated_amount - rec.amount) ∧
    (∀ (c : Campaign) (k : Key) (cl crl rent : Nat) (now : Int)
      (res : WithdrawOk), withdraw c k cl crl rent now = .ok res →
      res.campaign.creator = c.creator ∧ res.campaign.title = c.title ∧
      res.campaign.description = c.description ∧
      res.campaign.goal_amount = c.goal_amount ∧
      res.campaign.deadline = c.deadline ∧
      res.campaign.metadata_uri = c.metadata_uri ∧
      res.campaign.created_at = c.created_at ∧
      res.campaign.bump = c.bump ∧
      res.campaign.donated_amount = c.donated_amount ∧
      res.campaign.is_active = false ∧
      c.goal_amount ≤ res.campaign.donated_amount) ∧
    (∀ (c : Campaign) (k : Key) (cl crl rent : Nat) (now : Int)
      (res : WithdrawOk), withdraw c k cl crl rent now = .ok res →
      0 < c.goal_amount → 0 < res.campaign.donated_amount ∧
      ∀ (k2 : Key), txOk (delete_campaign res.campaign k2) = false) := by
  refine ⟨?_, ?_, ?_, ?_, ?_⟩
  · intro creator title description goal_amount deadline metadata_uri now bump
      camp h
    obtain ⟨hg, _, _, _, _, hres⟩ := create_ok_iff.1 h
    subst hres
    exact hg
  · intro c ck donor dl cl amount ts rb res h
    obtain ⟨_, _, hres⟩ := donate_ok_iff.1 h
    subst hres
    exact ⟨rfl, rfl, rfl, rfl, rfl, rfl, rfl, rfl, rfl, rfl⟩
  · intro c ck donor rec cl dl now res h
    obtain ⟨_, _, _, _, _, _, _, hres⟩ := refund_ok_iff.1 h
    subst hres
    exact ⟨rfl, rfl, rfl, rfl, rfl, rfl, rfl, rfl, rfl, rfl⟩
  · intro c k cl crl rent now res h
    obtain ⟨_, _, _, hge, _, _, hres⟩ := withdraw_ok_iff.1 h
    subst hres
    exact ⟨rfl, rfl, rfl, rfl, rfl, rfl, rfl, rfl, rfl, rfl, hge⟩
  · intro c k cl crl rent now res h hg
    obtain ⟨_, _, _, hge, _, _, hres⟩ := withdraw_ok_iff.1 h
    subst hres
    refine ⟨by show 0 < c.donated_amount; omega, ?_⟩
    intro k2
    cases hres2 : delete_campaign { c with is_active := false } k2 with
    | error e => rfl
    | ok u =>
      obtain ⟨_, hz⟩ := delete_ok_iff.1 hres2
      have hz2 : c.donated_amount = 0 := hz
      omega

def campW10 : Campaign :=
  { creator := 1, title := "t", description := "d", goal_amount := 5
    donated_amount := 6, deadline := 10, metadata_uri := "u"
    created_at := 0, is_active := true, bump := 255 }

def wresW10 : WithdrawOk :=
  { campaign := { campW10 with is_active := false }
    campaign_lamports := 40, creator_lamports := 60, withdrawn := 60 }

/-- Witness for C10: after a successful withdraw of a campaign with
goal 5 and donations 6, the stored total is still positive and even the
creator cannot delete the campaign. -/
theorem claim_C10_witness :
    0 < wresW10.campaign.donated_amount ∧
    txOk (delete_campaign wresW10.campaign 1) = false :=
  have h := claim_C10.2.2.2.2 campW10 1 100 0 40 10 wresW10 (by decide) (by decide)
  ⟨h.1, h.2 1⟩

end Solado
